import Mathlib

/-!
Shallow embedding of the WebSocket upgrade-handshake engine
(`src/lib/websocket-server.ts`, `src/lib/util.ts`, `src/lib/types.ts`,
`src/lib/constants.ts`, `src/lib/websocket.ts`).

JS strings are modelled as `String` / `List Char`; absent values
(`undefined`) as `Option`; thrown JS exceptions as `Except JsError`.
Machine integers do not occur: all JS numbers involved are small
non-negative integers (string indices, status codes) except for the
SHA-1 core, which works on 32-bit words modelled as `Nat` reduced
`% 2^32` at every operation that can overflow.
-/

namespace WS

/-- Thrown JS runtime errors that the embedded code can raise
(`TypeError: ... of undefined`). -/
inductive JsError where
  | typeError
deriving DecidableEq, Repr

/-- JS truthiness of a `string | undefined` value: `undefined` and the
empty string are falsy, every other string is truthy. -/
def jsTruthy : Option String → Bool
  | none => false
  | some s => s != ""

/-- `util.ts` `lastSlash`, inner downward scan: the source loops
`for (let i = str.length; i >= 0; i--)` and returns the first `i` with
`str[i] === '/'` (the out-of-range read at `i = str.length` yields
`undefined`, which never equals `'/'`). `none` models the implicit
`undefined` return when no slash exists. -/
def lastSlashFrom (s : List Char) : Nat → Option Nat
  | 0 => if s.get? 0 = some '/' then some 0 else none
  | i + 1 => if s.get? (i + 1) = some '/' then some (i + 1) else lastSlashFrom s i

/-- `util.ts` `lastSlash(str)`: index of the last `'/'` in the string,
`none` (JS `undefined`) when there is no slash. -/
def lastSlash (s : List Char) : Option Nat :=
  lastSlashFrom s s.length

/-- `websocket-server.ts` `#isWildcard(route)`: the character right after
the last `'/'` must be `':'`.  When `lastSlash` returns `undefined` the JS
index `undefined + 1` is `NaN` and `route[NaN]` is `undefined`, so the
result is `false`. -/
def isWildcard (route : List Char) : Bool :=
  match lastSlash route with
  | some i => route.get? (i + 1) == some ':'
  | none => false

/-- Loop body of `websocket-server.ts` `#correctRoute`: the source scans
`for (let i = 1; i < pathname.length; i++)`, breaking (returning `true`)
when `i === slashIndex` on a wildcard route, and otherwise comparing
`pathname[i] !== serviceRoute[j]` — where `j` is initialised to `1` and
never incremented, so every path character is compared against
`serviceRoute[1]`.  An out-of-range `serviceRoute[j]` is `undefined`,
which differs from any defined character.  The first argument counts the
remaining iterations, `pathname.length - i`, so the recursion is
structural; `0` remaining means `i < pathname.length` fails and the loop
falls through to `return true`. -/
def correctRouteLoop (serviceRoute : List Char) (slashIndex : Option Nat)
    (wildcardRoute : Bool) (pathname : List Char) :
    Nat → Nat → Bool
  | 0, _ => true
  | remaining + 1, i =>
      if slashIndex == some i && wildcardRoute then
        true
      else if pathname.get? i == serviceRoute.get? 1 then
        correctRouteLoop serviceRoute slashIndex wildcardRoute pathname remaining (i + 1)
      else
        false

/-- `websocket-server.ts` `#correctRoute` applied to an already-extracted
`url.pathname` (the source first computes `new URL(req.url, ...).pathname`;
see `correctRouteReq` below).  `j = 1, i = 1` skip the `'/'` prefix; the
loop runs `pathname.length - 1` times starting at `i = 1`. -/
def correctRoute (serviceRoute : List Char) (wildcardRoute : Bool)
    (pathname : List Char) : Bool :=
  correctRouteLoop serviceRoute (lastSlash serviceRoute) wildcardRoute pathname
    (pathname.length - 1) 1

/-- `new URL(req.url, base).pathname` for an origin-form request target
(a path starting with `/`): the pathname is the part of the target before
any `'?'` query or `'#'` fragment.  Percent-encoding normalisation is not
exercised by any input in this development. -/
def jsUrlPathname (url : String) : List Char :=
  url.toList.takeWhile (fun c => c != '?' && c != '#')

/-! ## Configuration (`types.ts` `WSSOptions`, constructor lines 35-54) -/

/-- `types.ts` `WSSOptions`: the options record accepted by the server
constructor.  Note the capital-P key `subProtocols`. -/
structure WSSOptions where
  origins : Option (List String) := none
  requireOrigin : Option Bool := none
  subProtocols : Option (List String) := none

/-- The object produced by the constructor's spread-merge
`{origins: undefined, requireOrigin: false, subprotocols: undefined, ...options}`.
It carries both the lower-case `subprotocols` key written in the literal
and the capital-P `subProtocols` key copied from a `WSSOptions` value by
the spread (the two names never collide, so the literal's `subprotocols`
is never overridden). -/
structure OptionValues where
  origins : Option (List String)
  requireOrigin : Bool
  subprotocols : Option (List String)
  subProtocols : Option (List String)

/-- The constructor's option merge.  A missing or `undefined`
`requireOrigin` is collapsed to `false`, which is truth-value-equivalent
to the JS record since the stored field is only ever used as a boolean
test. -/
def mergeOptions (o : WSSOptions) : OptionValues :=
  { origins := o.origins
    requireOrigin := o.requireOrigin.getD false
    subprotocols := none
    subProtocols := o.subProtocols }

/-- The per-instance fields of `WebSocketServer` set by the constructor:
`this.#subprotocols = optionValues.subprotocols` reads the lower-case key
of the merged record, which the spread of a `WSSOptions` value (whose key
is the capital-P `subProtocols`) never sets. -/
structure ServerState where
  origins : Option (List String)
  requireOrigin : Bool
  subprotocols : Option (List String)
  serviceRoute : List Char
  wildcardRoute : Bool

/-- `websocket-server.ts` constructor, lines 46-54. -/
def mkServer (route : List Char) (o : WSSOptions) : ServerState :=
  { origins := (mergeOptions o).origins
    requireOrigin := (mergeOptions o).requireOrigin
    subprotocols := (mergeOptions o).subprotocols
    serviceRoute := route
    wildcardRoute := isWildcard route }

/-! ## Requests (`http.IncomingMessage` as consumed by the server) -/

/-- The header fields read by the server.  Node lower-cases header names
and keeps values verbatim; a missing header is `undefined` (`none`). -/
structure Headers where
  upgrade : Option String := none
  connection : Option String := none
  secWebSocketKey : Option String := none
  secWebSocketVersion : Option String := none
  secWebSocketProtocol : Option String := none
  origin : Option String := none
deriving DecidableEq, Repr

/-- The request fields read by the server.  `req.httpVersion` is the
string `"major.minor"`; it is modelled by the two digit components. -/
structure Request where
  httpVersionMajor : Nat
  httpVersionMinor : Nat
  method : String
  url : Option String
  headers : Headers
deriving DecidableEq, Repr

/-- `Number(req.httpVersion) < 1.1` for a version string
`"major.minor"` with single-digit components (the only versions Node
produces): the parsed value `major + minor/10` is below `1.1` exactly
when `10*major + minor < 11`. -/
def httpVersionLt11 (r : Request) : Bool :=
  10 * r.httpVersionMajor + r.httpVersionMinor < 11

/-! ## Key validation (`util.ts` `isBase64Encoded`, `#keyValid`) -/

/-- Membership in the regex character class `[0-9a-zA-Z+/]`. -/
def isB64AlphabetChar (c : Char) : Bool :=
  ('0' ≤ c && c ≤ '9') || ('a' ≤ c && c ≤ 'z') || ('A' ≤ c && c ≤ 'Z')
    || c == '+' || c == '/'

/-- `util.ts` `isBase64Encoded`: the regex
`^([0-9a-zA-Z+/]{4})*(([0-9a-zA-Z+/]{2}==)|([0-9a-zA-Z+/]{3}=))?$`.
Every match is a sequence of 4-character groups: all but the last are
alphabet-only, and the last is either alphabet-only, three alphabet
characters plus `=`, or two alphabet characters plus `==`.  Since `=`
is not in the alphabet class, this decomposition is unambiguous. -/
def isBase64Encoded : List Char → Bool
  | [] => true
  | a :: b :: c :: d :: rest =>
      if rest.isEmpty then
        isB64AlphabetChar a && isB64AlphabetChar b &&
          ((isB64AlphabetChar c && (isB64AlphabetChar d || d == '=')) ||
            (c == '=' && d == '='))
      else
        isB64AlphabetChar a && isB64AlphabetChar b && isB64AlphabetChar c &&
          isB64AlphabetChar d && isBase64Encoded rest
  | _ => false

/-- `websocket-server.ts` `#keyValid`: base64-encoded, exactly 24
characters, and `key.substring(22)` equals `"=="`. -/
def keyValid (key : String) : Bool :=
  if !isBase64Encoded key.toList then false
  else if key.length != 24 then false
  else if key.toList.drop 22 != ['=', '='] then false
  else true

/-! ## Structural, version and origin checks -/

/-- `websocket-server.ts` `#requestValid`: the disjunction of failure
conditions, negated.  The comparisons against `'websocket'`, `'upgrade'`
and `'GET'` are JS strict (case-sensitive) equality; a missing header
(`undefined`) also differs.  The `||` chain short-circuits, so
`#keyValid` is only reached with a truthy key; the `getD ""` default is
therefore never the decisive value. -/
def requestValid (r : Request) : Bool :=
  if httpVersionLt11 r
      || r.method != "GET"
      || r.headers.upgrade != some "websocket"
      || r.headers.connection != some "upgrade"
      || !jsTruthy r.url
      || !jsTruthy r.headers.secWebSocketKey
      || !keyValid (r.headers.secWebSocketKey.getD "") then
    false
  else
    true

/-- `websocket-server.ts` `#versionValid`. -/
def versionValid (r : Request) : Bool :=
  r.headers.secWebSocketVersion == some "13"

/-- `websocket-server.ts` `#originValid`: JS truthiness guards both the
request origin (absent or empty string is falsy) and the configured
allow-list (an array, truthy even when empty). -/
def originValid (s : ServerState) (r : Request) : Bool :=
  if jsTruthy r.headers.origin && s.origins.isSome then
    (s.origins.getD []).contains (r.headers.origin.getD "")
  else if s.requireOrigin && !jsTruthy r.headers.origin then
    false
  else
    true

/-- `websocket-server.ts` `#correctRoute` from the request: a falsy
`req.url` fails, otherwise the pathname of `new URL(req.url, base)` is
matched against the configured route. -/
def correctRouteReq (s : ServerState) (r : Request) : Bool :=
  if !jsTruthy r.url then false
  else correctRoute s.serviceRoute s.wildcardRoute (jsUrlPathname (r.url.getD ""))

/-! ## Protocol negotiation (`#selectProtocol`) -/

/-- `needle` occurs at the start of `hay`. -/
def listStarts : List Char → List Char → Bool
  | [], _ => true
  | _ :: _, [] => false
  | a :: as, b :: bs => a == b && listStarts as bs

/-- `needle` occurs somewhere in `hay` (substring containment). -/
def containsSub (needle : List Char) : List Char → Bool
  | [] => listStarts needle []
  | c :: rest => listStarts needle (c :: rest) || containsSub needle rest

/-- JS `String.prototype.split` with a non-empty string separator:
leftmost non-overlapping occurrences delimit the segments.  The fuel
argument bounds the scan; callers pass the subject length, which
suffices since every step consumes at least one character. -/
def splitCharsGo (sep : List Char) : Nat → List Char → List Char → List (List Char)
  | _, cur, [] => [cur.reverse]
  | 0, cur, l => [cur.reverse ++ l]
  | fuel + 1, cur, c :: rest =>
      if listStarts sep (c :: rest) then
        cur.reverse :: splitCharsGo sep fuel [] ((c :: rest).drop sep.length)
      else
        splitCharsGo sep fuel (c :: cur) rest

/-- JS `subject.split(sep)` for a non-empty separator. -/
def jsSplit (subject sep : String) : List String :=
  (splitCharsGo sep.toList subject.toList.length [] subject.toList).map String.mk

/-- JS `this.#subprotocols?.includes(x)`: `undefined` when the list is
`undefined` (falsy), otherwise array membership. -/
def jsOptIncludes (o : Option (List String)) (x : String) : Bool :=
  match o with
  | none => false
  | some l => l.contains x

/-- `websocket-server.ts` `#selectProtocol`: split the header on `", "`
and return the first entry the stored `#subprotocols` list includes
(implicit `undefined` — `none` — when the loop finds nothing). -/
def selectProtocol (s : ServerState) (protocols : String) : Option String :=
  (jsSplit protocols ", ").find? (fun p => jsOptIncludes s.subprotocols p)

/-! ## Dispatch (`handleUpgrade` and the constructor's upgrade handler) -/

/-- The action the server takes on an upgrade event: either an
`#abort(status, socket, headers?)` call or acceptance (`#upgrade`). -/
inductive Outcome where
  | abort (status : Nat) (headers : Option (List String))
  | accept
deriving DecidableEq, Repr

/-- `websocket-server.ts` `handleUpgrade`, lines 84-94: origin, then
structure, then version; the 426 abort passes the header list
`['Sec-Websocket-Version: 13']` (note the lower-case `w` in the
source literal). -/
def handleUpgrade (s : ServerState) (r : Request) : Outcome :=
  if !originValid s r then
    .abort 403 none
  else if !requestValid r then
    .abort 400 none
  else if !versionValid r then
    .abort 426 (some ["Sec-Websocket-Version: 13"])
  else
    .accept

/-- The constructor's `'upgrade'` listener, lines 62-68: route first,
404 on mismatch (never reaching `handleUpgrade`), else `handleUpgrade`. -/
def upgradeEvent (s : ServerState) (r : Request) : Outcome :=
  if correctRouteReq s r then handleUpgrade s r else .abort 404 none

/-! ## HTTP response formatting (`util.ts` `formatHttpResponse`) -/

/-- The entries of Node's `http.STATUS_CODES` table for the status codes
this server produces. -/
def STATUS_CODES : Nat → Option String
  | 101 => some "Switching Protocols"
  | 400 => some "Bad Request"
  | 403 => some "Forbidden"
  | 404 => some "Not Found"
  | 426 => some "Upgrade Required"
  | _ => none

/-- JS template-literal interpolation of a `string | undefined` value:
`undefined` prints as the text `undefined`. -/
def jsInterpOpt : Option String → String
  | none => "undefined"
  | some s => s

/-- `util.ts` `formatHttpResponse(statusCode, headers?)`.  When `headers`
is omitted, evaluating `headers.forEach(...)` inside the template throws
`TypeError` (property access on `undefined`) before any string is
produced.  When `headers` is an array, `Array.prototype.forEach` returns
`undefined` (the callback results are discarded), so the template
interpolates the literal text `undefined` where the header lines were
meant to go.  The template spans source lines, so its text contains the
raw newlines and indentation between the `\r\n` escapes.  The `Date`
value is a runtime input and is passed as a parameter. -/
def formatHttpResponse (statusCode : Nat) (headers : Option (List String))
    (date : String) : Except JsError String :=
  match headers with
  | none => .error .typeError
  | some _ =>
      .ok ("HTTPS/1.1 " ++ toString statusCode ++ " "
        ++ jsInterpOpt (STATUS_CODES statusCode)
        ++ "\r\n\n    Date: " ++ date
        ++ "\r\n\n    undefined\n    \r\n")

/-! ## Connection registry (`#activeConnections`, `#addConnection`) -/

/-- `websocket.ts`: the only field of a `WebSocket` the registry logic
reads is the request `uri` stored at construction. -/
structure WebSocketConn where
  uri : String
deriving DecidableEq, Repr

/-- `types.ts` `ConnectionList`: a flat array of connections, or an
object keyed by wildcard segment (modelled as an association list in
insertion order). -/
inductive ConnectionList where
  | flat (conns : List WebSocketConn)
  | buckets (m : List (String × List WebSocketConn))
deriving DecidableEq, Repr

/-- JS property read `obj[key]` on the bucket object: `undefined` when
the key is absent. -/
def bucketsLookup (m : List (String × List WebSocketConn)) (k : String) :
    Option (List WebSocketConn) :=
  (m.find? (fun p => p.1 == k)).map (fun p => p.2)

/-- In-place `push` onto the array stored at `k` (callers establish the
key is present). -/
def bucketsPush (m : List (String × List WebSocketConn)) (k : String)
    (ws : WebSocketConn) : List (String × List WebSocketConn) :=
  m.map (fun p => if p.1 == k then (p.1, p.2 ++ [ws]) else p)

/-- `#addConnection` line 125, `ws.uri.substring(lastSlash(ws.uri) + 1)`:
the path suffix after the last `'/'`.  When the uri has no slash, JS
computes `substring(undefined + 1) = substring(NaN)`, which returns the
whole string. -/
def wildcardEndpoint (uri : String) : String :=
  match lastSlash uri.toList with
  | some i => String.mk (uri.toList.drop (i + 1))
  | none => uri

/-- `websocket-server.ts` `#addConnection`: push onto the flat array, or
push onto `this.#activeConnections[wildcardEndpoint]`.  No bucket is ever
created, so when the key is absent the property read yields `undefined`
and `.push` throws `TypeError`. -/
def addConnection (cl : ConnectionList) (ws : WebSocketConn) :
    Except JsError ConnectionList :=
  match cl with
  | .flat conns => .ok (.flat (conns ++ [ws]))
  | .buckets m =>
      match bucketsLookup m (wildcardEndpoint ws.uri) with
      | some _ => .ok (.buckets (bucketsPush m (wildcardEndpoint ws.uri) ws))
      | none => .error .typeError

/-- Constructor line 54: `this.#activeConnections = this.#wildcardRoute ? {} : []`. -/
def initialConnections (s : ServerState) : ConnectionList :=
  if s.wildcardRoute then .buckets [] else .flat []

/-! ## SHA-1 (`crypto.createHash('sha1')`, FIPS 180-4) over byte lists -/

/-- 32-bit left rotation on a word `x < 2^32`, by pure arithmetic:
the high `n` bits wrap to the bottom. -/
def rotl32 (n x : Nat) : Nat :=
  (x * 2 ^ n + x / 2 ^ (32 - n)) % 2 ^ 32

/-- Bitwise complement of a 32-bit word. -/
def bnot32 (x : Nat) : Nat :=
  2 ^ 32 - 1 - x

/-- SHA-1 round constant for step `t`. -/
def sha1K (t : Nat) : Nat :=
  if t < 20 then 0x5A827999
  else if t < 40 then 0x6ED9EBA1
  else if t < 60 then 0x8F1BBCDC
  else 0xCA62C1D6

/-- SHA-1 round function for step `t`. -/
def sha1F (t b c d : Nat) : Nat :=
  if t < 20 then (b.land c).lor ((bnot32 b).land d)
  else if t < 40 then (b.xor c).xor d
  else if t < 60 then ((b.land c).lor (b.land d)).lor (c.land d)
  else (b.xor c).xor d

/-- Pack a byte list (big-endian) into 32-bit words, four bytes each. -/
def bytesToWords : List Nat → List Nat
  | b0 :: b1 :: b2 :: b3 :: rest =>
      (((b0 * 256 + b1) * 256 + b2) * 256 + b3) :: bytesToWords rest
  | _ => []

/-- Extend a 16-word schedule by `n` further words:
`W[t] = rotl1 (W[t-3] xor W[t-8] xor W[t-14] xor W[t-16])`. -/
def sha1Extend (w : List Nat) : Nat → List Nat
  | 0 => w
  | n + 1 =>
      sha1Extend
        (w ++ [rotl32 1
          ((((w.get? (w.length - 3)).getD 0).xor ((w.get? (w.length - 8)).getD 0)).xor
            ((((w.get? (w.length - 14)).getD 0)).xor ((w.get? (w.length - 16)).getD 0)))])
        n

/-- The 80 compression steps: state `(a, b, c, d, e)`, step counter `t`,
remaining schedule words. -/
def sha1Steps : List Nat → Nat → Nat × Nat × Nat × Nat × Nat →
    Nat × Nat × Nat × Nat × Nat
  | [], _, st => st
  | wt :: ws, t, (a, b, c, d, e) =>
      sha1Steps ws (t + 1)
        ((rotl32 5 a + sha1F t b c d + e + sha1K t + wt) % 2 ^ 32,
          a, rotl32 30 b, c, d)

/-- Process one 64-byte block, updating the running hash state. -/
def sha1Block (h : Nat × Nat × Nat × Nat × Nat) (block : List Nat) :
    Nat × Nat × Nat × Nat × Nat :=
  match h with
  | (h0, h1, h2, h3, h4) =>
      match sha1Steps (sha1Extend (bytesToWords block) 64) 0 (h0, h1, h2, h3, h4) with
      | (a, b, c, d, e) =>
          ((h0 + a) % 2 ^ 32, (h1 + b) % 2 ^ 32, (h2 + c) % 2 ^ 32,
            (h3 + d) % 2 ^ 32, (h4 + e) % 2 ^ 32)

/-- Big-endian bytes of a value, `n` bytes wide. -/
def beBytes : Nat → Nat → List Nat
  | 0, _ => []
  | n + 1, v => v / 2 ^ (8 * n) % 256 :: beBytes n v

/-- Merkle-Damgård padding: `0x80`, zeros to 56 mod 64, then the bit
length as 8 big-endian bytes. -/
def sha1Pad (msg : List Nat) : List Nat :=
  msg ++ 0x80 :: List.replicate ((119 - msg.length % 64) % 64) 0
    ++ beBytes 8 (msg.length * 8)

/-- Split a non-empty list into successive 64-element chunks.  The fuel
argument is an upper bound on the number of chunks; `chunks64` passes the
list length, which always suffices since every step consumes at least one
element. -/
def chunks64Go : Nat → List Nat → List (List Nat)
  | _, [] => []
  | 0, l => [l]
  | fuel + 1, x :: rest => (x :: rest.take 63) :: chunks64Go fuel (rest.drop 63)

/-- Split a list into 64-element chunks. -/
def chunks64 (l : List Nat) : List (List Nat) :=
  chunks64Go l.length l

/-- SHA-1 digest (20 bytes) of a byte list. -/
def sha1 (msg : List Nat) : List Nat :=
  match (chunks64 (sha1Pad msg)).foldl sha1Block
      (0x67452301, 0xEFCDAB89, 0x98BADCFE, 0x10325476, 0xC3D2E1F0) with
  | (h0, h1, h2, h3, h4) =>
      beBytes 4 h0 ++ beBytes 4 h1 ++ beBytes 4 h2 ++ beBytes 4 h3 ++ beBytes 4 h4

/-! ## Base64 (`Buffer` encoding and Node's lenient decoding) -/

/-- The standard base64 alphabet, indexed 0-63. -/
def b64Alphabet : List Char :=
  "ABCDEFGHIJKLMNOPQRSTUVWXYZabcdefghijklmnopqrstuvwxyz0123456789+/".toList

/-- Alphabet character for a 6-bit value. -/
def b64CharOf (v : Nat) : Char :=
  (b64Alphabet.get? v).getD 'A'

/-- `buffer.toString('base64')`: standard base64 with padding. -/
def base64Encode : List Nat → List Char
  | [] => []
  | [a] => [b64CharOf (a / 4), b64CharOf (a % 4 * 16), '=', '=']
  | [a, b] => [b64CharOf (a / 4), b64CharOf (a % 4 * 16 + b / 16),
      b64CharOf (b % 16 * 4), '=']
  | a :: b :: c :: rest =>
      b64CharOf (a / 4) :: b64CharOf (a % 4 * 16 + b / 16)
        :: b64CharOf (b % 16 * 4 + c / 64) :: b64CharOf (c % 64)
        :: base64Encode rest

/-- 6-bit value of a character under Node's `unbase64_table`: the
standard alphabet plus the URL-safe alphabet (`'-'` maps to 62 and `'_'`
to 63, alongside `'+'` and `'/'`); `none` for every other character.
The padding character `'='` is not handled here: Node's decode loop
treats it as a full stop, modelled in `nodeBase64Decode`. -/
def b64Val (c : Char) : Option Nat :=
  if 'A' ≤ c && c ≤ 'Z' then some (c.toNat - 'A'.toNat)
  else if 'a' ≤ c && c ≤ 'z' then some (c.toNat - 'a'.toNat + 26)
  else if '0' ≤ c && c ≤ '9' then some (c.toNat - '0'.toNat + 52)
  else if c == '+' || c == '-' then some 62
  else if c == '/' || c == '_' then some 63
  else none

/-- Pack a stream of 6-bit values into bytes, emitting a byte whenever 8
bits have accumulated; trailing bits (fewer than 8) are discarded, as in
Node's decoder. -/
def packBits : List Nat → Nat → Nat → List Nat
  | [], _, _ => []
  | v :: vs, acc, bits =>
      if 8 ≤ bits + 6 then
        (acc * 64 + v) / 2 ^ (bits + 6 - 8)
          :: packBits vs ((acc * 64 + v) % 2 ^ (bits + 6 - 8)) (bits + 6 - 8)
      else
        packBits vs (acc * 64 + v) (bits + 6)

/-- Node's lenient base64 decoding, used by
`hash.update(str, 'base64')`, per `base64_decode_group_slow`: the scan
for each next 6-bit value skips characters outside the (standard or
URL-safe) alphabet, but a `'='` stops decoding entirely; the values
gathered before the stop are packed into bytes, trailing bits (fewer
than 8) discarded. -/
def nodeBase64Decode (s : List Char) : List Nat :=
  packBits ((s.takeWhile (fun c => c != '=')).filterMap b64Val) 0 0

/-! ## Accept token (`constants.ts` `GUID`, `#generateSecWebSocketAccept`) -/

/-- `constants.ts`: the RFC 6455 §4.2.2 magic GUID. -/
def GUID : String := "258EAFA5-E914-47DA-95CA-C5AB0DC85B11"

/-- JS `String.prototype.trim` whitespace for the ASCII range. -/
def isJsWhitespace (c : Char) : Bool :=
  c == ' ' || c == '\t' || c == '\n' || c == '\r' || c == '\x0b' || c == '\x0c'

/-- `key.trim()`: strip leading and trailing whitespace. -/
def jsTrim (s : List Char) : List Char :=
  ((s.dropWhile isJsWhitespace).reverse.dropWhile isJsWhitespace).reverse

/-- `websocket-server.ts` `#generateSecWebSocketAccept`: trim the key,
concatenate the GUID, then `hash.update(concatenated, 'base64')` — the
`'base64'` input encoding makes Node decode the string as lenient base64
and hash the decoded bytes — and return the digest base64-encoded. -/
def generateSecWebSocketAccept (key : String) : String :=
  String.mk (base64Encode (sha1
    (nodeBase64Decode (jsTrim key.toList ++ GUID.toList))))

/-- The accept computation the claim describes (trim, concatenate the
GUID, SHA-1 the UTF-8 bytes of the concatenation, base64-encode the
digest).  The inputs are ASCII, where UTF-8 bytes are the character
codes. -/
def claimAcceptToken (key : String) : String :=
  String.mk (base64Encode (sha1
    ((jsTrim key.toList ++ GUID.toList).map Char.toNat)))

/-! ## Claim-side comparison definitions -/

/-- ASCII lower-casing of a string, for the claims' case-insensitive
header comparisons. -/
def lowerAscii (s : String) : String :=
  String.mk (s.toList.map Char.toLower)

/-- The structural validity predicate as claim C4 words it: version at
least 1.1, method exactly `GET`, a present non-empty path, `upgrade` and
`connection` header values compared case-insensitively, and a present
key satisfying the (undisputed) key format check. -/
def claimStructuralValid (r : Request) : Bool :=
  !httpVersionLt11 r && r.method == "GET" && jsTruthy r.url
    && r.headers.upgrade.map lowerAscii == some "websocket"
    && r.headers.connection.map lowerAscii == some "upgrade"
    && (match r.headers.secWebSocketKey with
        | none => false
        | some k => keyValid k)

/-- The origin truth table as claim C7 words it: list membership when an
origin header is present and an allow-list is configured; `false` when no
origin header is present and `requireOrigin` is true; `true` in every
other case. -/
def claimOriginPolicy (origins : Option (List String)) (requireOrigin : Bool)
    (origin : Option String) : Bool :=
  match origin, origins with
  | some o, some l => l.contains o
  | some _, none => true
  | none, _ => !requireOrigin

/-- The amended origin truth table: an origin header that is absent or
has the empty-string value counts as absent; the result is list
membership when a non-empty origin is present and an allow-list is
configured, `false` when the origin is absent-or-empty and
`requireOrigin` is true, and `true` in every other case. -/
def amendedOriginPolicy (origins : Option (List String)) (requireOrigin : Bool)
    (origin : Option String) : Bool :=
  match origin, origins with
  | some o, some l => if o != "" then l.contains o else !requireOrigin
  | some o, none => if o != "" then true else !requireOrigin
  | none, _ => !requireOrigin

/-- The negotiation the claim describes: the first client-offered entry
that appears in the server-supported list. -/
def claimSelectProtocol (clientOffered serverSupported : List String) :
    Option String :=
  clientOffered.find? (fun p => serverSupported.contains p)

/-! ## Concrete inputs used by the evaluations -/

/-- A structurally well-formed request whose `connection` header carries
the capitalisation every browser sends (`Upgrade`). -/
def reqBrowserConnection : Request :=
  { httpVersionMajor := 1
    httpVersionMinor := 1
    method := "GET"
    url := some "/chat"
    headers :=
      { upgrade := some "websocket"
        connection := some "Upgrade"
        secWebSocketKey := some "dGhlIHNhbXBsZSBub25jZQ=="
        secWebSocketVersion := some "13" } }

/-- A request that passes route (via the broken matcher: path `/cc`
against pattern `/chat`), origin and structural checks, but offers
protocol version `12`. -/
def reqVersion12 : Request :=
  { httpVersionMajor := 1
    httpVersionMinor := 1
    method := "GET"
    url := some "/cc"
    headers :=
      { upgrade := some "websocket"
        connection := some "upgrade"
        secWebSocketKey := some "dGhlIHNhbXBsZSBub25jZQ=="
        secWebSocketVersion := some "12" } }

/-- A request whose `origin` header is present with the empty-string
value. -/
def reqEmptyOrigin : Request :=
  { httpVersionMajor := 1
    httpVersionMinor := 1
    method := "GET"
    url := some "/chat"
    headers := { origin := some "" } }

/-- A server for the literal route `/chat` with default options. -/
def chatServer : ServerState :=
  mkServer "/chat".toList {}

/-- A server configured with an allow-list and `requireOrigin` left at
its default `false`. -/
def allowListServer : ServerState :=
  mkServer "/chat".toList { origins := some ["https://a.example"] }

/-- A server configured (through `WSSOptions.subProtocols`) to support
`chatv1` and `chatv3`. -/
def subprotocolServer : ServerState :=
  mkServer "/chat".toList { subProtocols := some ["chatv1", "chatv3"] }

/-- The string `formatHttpResponse` actually produces for the 426 abort
with the date fixed to the epoch. -/
def version426Response : String :=
  "HTTPS/1.1 426 Upgrade Required\r\n\n    Date: Thu, 01 Jan 1970 00:00:00 GMT\r\n\n    undefined\n    \r\n"

end WS

namespace WS

set_option maxRecDepth 100000 in
/-- Claim C1: for the RFC 6455 sample client key the code's accept-token
computation is claimed to return `s3pPLMBiTxaQ9kYGzzhZRbK+xOo=`.  It does
not: `hash.update(concatenated, 'base64')` hashes the base64 decoding of
the concatenation instead of its UTF-8 bytes — and since Node's decoder
stops at the key's first padding `'='`, the bytes hashed are exactly the
16 bytes `the sample nonce`, producing `nYNUMU3LUURODadrlj9ew7SwzYI=`;
hashing the UTF-8 bytes, as the claim describes, does produce the RFC
vector. -/
theorem c1_accept_token :
    nodeBase64Decode (jsTrim "dGhlIHNhbXBsZSBub25jZQ==".toList ++ GUID.toList) =
        "the sample nonce".toList.map Char.toNat ∧
      generateSecWebSocketAccept "dGhlIHNhbXBsZSBub25jZQ==" =
        "nYNUMU3LUURODadrlj9ew7SwzYI=" ∧
      generateSecWebSocketAccept "dGhlIHNhbXBsZSBub25jZQ==" ≠
        "s3pPLMBiTxaQ9kYGzzhZRbK+xOo=" ∧
      claimAcceptToken "dGhlIHNhbXBsZSBub25jZQ==" =
        "s3pPLMBiTxaQ9kYGzzhZRbK+xOo=" := by
  decide

/-- Claim C2: a literal pattern is claimed to match exactly the paths
equal to it.  The loop in `#correctRoute` never increments `j`, so the
pattern `/chat` rejects the path `/chat` (the `h` at index 2 is compared
against the pattern's `c` at index 1) while accepting the unequal path
`/cc` (every character from index 1 on equals `c`). -/
theorem c2_literal_route :
    isWildcard "/chat".toList = false ∧
      correctRoute "/chat".toList false "/chat".toList = false ∧
      correctRoute "/chat".toList false "/cc".toList = true := by
  decide

/-- Claim C3: the wildcard pattern `/chat/:id` is claimed to match
`/chat/room1`.  Because `j` is never incremented, the path is rejected at
index 2; conversely `/ccccc/anything` is accepted because the scan
reaches the pattern's last-slash index while only ever comparing against
the pattern's index-1 character `c`.  The wildcard-segment extraction
(substring after the path's final slash) does behave as claimed. -/
theorem c3_wildcard_route :
    isWildcard "/chat/:id".toList = true ∧
      correctRoute "/chat/:id".toList true "/chat/room1".toList = false ∧
      correctRoute "/chat/:id".toList true "/ccccc/anything".toList = true ∧
      wildcardEndpoint "/chat/room1" = "room1" := by
  decide

/-- Claim C4: structural validation is claimed to compare the `upgrade`
and `connection` header values case-insensitively.  The code uses JS
strict equality against the lower-case literals, so a request carrying
`Connection: Upgrade` — which satisfies every check of the claim,
case-insensitivity included — is classified malformed. -/
theorem c4_structural_checks :
    claimStructuralValid reqBrowserConnection = true ∧
      requestValid reqBrowserConnection = false := by
  decide

/-- Claim C5: a request failing only the version gate is aborted with
status 426, as claimed; but the written response never contains the
claimed header line `Sec-WebSocket-Version: 13`: the code passes the
misspelled header `Sec-Websocket-Version: 13`, and `formatHttpResponse`
discards the header list anyway, interpolating the return value of
`Array.prototype.forEach` — the text `undefined` — in its place. -/
theorem c5_version_gate :
    upgradeEvent chatServer reqVersion12 =
        .abort 426 (some ["Sec-Websocket-Version: 13"]) ∧
      formatHttpResponse 426 (some ["Sec-Websocket-Version: 13"])
          "Thu, 01 Jan 1970 00:00:00 GMT" = .ok version426Response ∧
      containsSub "Sec-WebSocket-Version: 13".toList
          version426Response.toList = false ∧
      containsSub "Sec-Websocket-Version: 13".toList
          version426Response.toList = false := by
  exact ⟨rfl, rfl, by decide, by decide⟩

/-- Claim C6: with the server configured to support `chatv1` and
`chatv3`, a client offer of `chatv2, chatv1` is claimed to select
`chatv1`.  The constructor stores `optionValues.subprotocols`, a key the
spread of `WSSOptions` (whose key is `subProtocols`) never sets, so the
stored list is always `undefined` and negotiation selects nothing; the
first-client-preference rule itself, applied to the configured lists,
would select `chatv1`. -/
theorem c6_subprotocol_negotiation :
    claimSelectProtocol ["chatv2", "chatv1"] ["chatv1", "chatv3"] =
        some "chatv1" ∧
      subprotocolServer.subprotocols = none ∧
      selectProtocol subprotocolServer "chatv2, chatv1" = none ∧
      ∀ (route : List Char) (o : WSSOptions) (protocols : String),
        selectProtocol (mkServer route o) protocols = none := by
  refine ⟨by decide, rfl, by decide, ?_⟩
  intro route o protocols
  simp [selectProtocol, mkServer, mergeOptions, jsOptIncludes, List.find?_eq_none]

/-- Claim C7, counterexample: the claim's truth table demands list
membership whenever an origin header is present and an allow-list is
configured.  For the present-but-empty origin header, configured list
`["https://a.example"]` and `requireOrigin` false, membership is `false`
yet the code accepts: JS truthiness makes `""` take the absent-origin
path. -/
theorem c7_origin_policy_counterexample :
    claimOriginPolicy (some ["https://a.example"]) false (some "") = false ∧
      originValid allowListServer reqEmptyOrigin = true := by
  decide

/-- Claim C7, amended: with an absent-or-empty origin header treated as
absent, the code's origin policy realises exactly the claimed truth
table, for every configuration and request. -/
theorem c7_origin_policy_amended (s : ServerState) (r : Request) :
    originValid s r = amendedOriginPolicy s.origins s.requireOrigin r.headers.origin := by
  obtain ⟨so, sro, ssp, srt, swc⟩ := s
  cases ho : r.headers.origin with
  | none =>
      cases so <;> cases sro <;>
        simp [originValid, amendedOriginPolicy, jsTruthy, ho]
  | some o =>
      by_cases he : o = "" <;> cases so <;> cases sro <;>
        simp [originValid, amendedOriginPolicy, jsTruthy, ho, he]

/-- Claim C7 amended, witness at the counterexample input: the policy
for the empty-origin request against the allow-list server evaluates to
the amended table's value (`true`). -/
theorem c7_origin_policy_amended_witness :
    originValid allowListServer reqEmptyOrigin =
      amendedOriginPolicy allowListServer.origins allowListServer.requireOrigin
        reqEmptyOrigin.headers.origin :=
  c7_origin_policy_amended allowListServer reqEmptyOrigin

/-- Claim C8: the checks run route first (a mismatch yields the 404
abort without reaching the other validators), then origin (403), then
structure (400), then version (426, with the header list the code
passes), and only a request passing all four is accepted; the first
failing check alone determines the outcome. -/
theorem c8_check_order (s : ServerState) (r : Request) :
    (upgradeEvent s r = .abort 404 none ↔ correctRouteReq s r = false) ∧
      (upgradeEvent s r = .abort 403 none ↔
        correctRouteReq s r = true ∧ originValid s r = false) ∧
      (upgradeEvent s r = .abort 400 none ↔
        correctRouteReq s r = true ∧ originValid s r = true ∧
          requestValid r = false) ∧
      (upgradeEvent s r = .abort 426 (some ["Sec-Websocket-Version: 13"]) ↔
        correctRouteReq s r = true ∧ originValid s r = true ∧
          requestValid r = true ∧ versionValid r = false) ∧
      (upgradeEvent s r = .accept ↔
        correctRouteReq s r = true ∧ originValid s r = true ∧
          requestValid r = true ∧ versionValid r = true) := by
  unfold upgradeEvent handleUpgrade
  by_cases h1 : correctRouteReq s r = true <;>
    by_cases h2 : originValid s r = true <;>
      by_cases h3 : requestValid r = true <;>
        by_cases h4 : versionValid r = true <;>
          simp_all

/-- Claim C9: insertion into the registry appends to the flat list on a
non-wildcard server, as claimed; but on a wildcard server the bucket for
a new segment is never created: the very first accepted connection reads
the missing key (yielding `undefined`) and `.push` throws, so no two
handshakes ever populate two buckets. -/
theorem c9_registry_insert :
    initialConnections (mkServer "/chat/:id".toList {}) = .buckets [] ∧
      addConnection (.buckets []) ⟨"/chat/room1"⟩ = .error .typeError ∧
      addConnection (.flat []) ⟨"/chat"⟩ = .ok (.flat [⟨"/chat"⟩]) := by
  exact ⟨rfl, rfl, rfl⟩

/-- Claim C10: whenever `formatHttpResponse` is called with the headers
argument omitted — as every 404, 403 and 400 abort calls it — evaluating
`headers.forEach` dereferences `undefined` and throws a `TypeError`, so
no response string is ever produced. -/
theorem c10_format_response_missing_headers :
    ∀ (code : Nat) (date : String),
      formatHttpResponse code none date = .error .typeError := by
  intro code date
  rfl

/-- Claim C8, witness: the characterisation applied to the version-12
request against the `/chat` server, whose outcome is the 426 abort. -/
theorem c8_check_order_witness :
    (upgradeEvent chatServer reqVersion12 = .abort 404 none ↔
        correctRouteReq chatServer reqVersion12 = false) ∧
      (upgradeEvent chatServer reqVersion12 = .abort 403 none ↔
        correctRouteReq chatServer reqVersion12 = true ∧
          originValid chatServer reqVersion12 = false) ∧
      (upgradeEvent chatServer reqVersion12 = .abort 400 none ↔
        correctRouteReq chatServer reqVersion12 = true ∧
          originValid chatServer reqVersion12 = true ∧
          requestValid reqVersion12 = false) ∧
      (upgradeEvent chatServer reqVersion12 =
            .abort 426 (some ["Sec-Websocket-Version: 13"]) ↔
        correctRouteReq chatServer reqVersion12 = true ∧
          originValid chatServer reqVersion12 = true ∧
          requestValid reqVersion12 = true ∧
          versionValid reqVersion12 = false) ∧
      (upgradeEvent chatServer reqVersion12 = .accept ↔
        correctRouteReq chatServer reqVersion12 = true ∧
          originValid chatServer reqVersion12 = true ∧
          requestValid reqVersion12 = true ∧
          versionValid reqVersion12 = true) :=
  c8_check_order chatServer reqVersion12

/-- Claim C10, witness: the 404 abort's formatter call at a concrete
date throws. -/
theorem c10_format_response_missing_headers_witness :
    formatHttpResponse 404 none "Thu, 01 Jan 1970 00:00:00 GMT" =
      .error .typeError :=
  c10_format_response_missing_headers 404 "Thu, 01 Jan 1970 00:00:00 GMT"

end WS
